import Mathlib

/-!
Shallow embedding of the benchmark orchestration and score aggregation code of
the playful-benchmarker repository.

Embedded source files:
* `src/pages/RunResult.jsx` — the score aggregation (`averageScores` reduce and
  the derived `scoreData`).
* `src/components/benchmark/BenchmarkRunner.jsx` — the `handleStartBenchmark`
  callback of the `BenchmarkRunner` component (the "B" variant below).
* `src/pages/StartBenchmark.jsx` — the `handleStartBenchmark` callback of the
  `StartBenchmark` page (the "S" variant below).

External collaborators (the Supabase data gateway, the impersonation client and
the target-system HTTP endpoint) are modelled as explicit environments of
response functions; the durable store (runs/results tables), the toast log, the
network/gateway call log and the `isRunning` flag are threaded as explicit
state.  JavaScript exceptions are modelled with `Except`, carrying the thrown
message and the state at the moment of the throw.
-/

set_option autoImplicit false

namespace Playful

/-! ## Score aggregation (`src/pages/RunResult.jsx`) -/

/-- A row of the `reviewers` table, restricted to the field the aggregation
reads (`reviewer?.dimension`). -/
structure Reviewer where
  dimension : String
  deriving Repr, DecidableEq

/-- A row of the run-results list as consumed by `RunResult`: the aggregation
reads `result.reviewer_id` and `result.result.score`.  The score (a JSON
number) is modelled as a rational. -/
structure RRow where
  reviewer_id : Nat
  score : ℚ
  deriving Repr, DecidableEq

/-- `const dimension = reviewer?.dimension || 'Unknown'`: the dimension label
derived for one result row.  JavaScript `||` falls through on every falsy
value, so both a failed reviewer lookup and an empty-string `dimension` field
yield `"Unknown"`. -/
def dimOf (lookup : Nat → Option Reviewer) (r : RRow) : String :=
  match lookup r.reviewer_id with
  | some rev => if rev.dimension = "" then "Unknown" else rev.dimension
  | none => "Unknown"

/-- One step of the `results.reduce` accumulator: the accumulator object
`acc` is modelled as an association list mapping a dimension label to its
running `{ total, count }` pair, in key-insertion order. -/
def accStep (lookup : Nat → Option Reviewer) (acc : List (String × ℚ × Nat))
    (r : RRow) : List (String × ℚ × Nat) :=
  let d := dimOf lookup r
  if acc.any (fun p => p.1 = d) then
    acc.map (fun p => if p.1 = d then (p.1, p.2.1 + r.score, p.2.2 + 1) else p)
  else
    acc ++ [(d, r.score, 1)]

/-- `const averageScores = results.reduce(..., {})`. -/
def averageScores (lookup : Nat → Option Reviewer) (results : List RRow) :
    List (String × ℚ × Nat) :=
  results.foldl (accStep lookup) []

/-- `parseFloat(x.toFixed(1))` on an exact rational: round to the nearest
multiple of `1/10`, ties away from zero toward the larger value, as
`Number.prototype.toFixed` specifies. -/
def round1 (x : ℚ) : ℚ :=
  (⌊10 * x + 1 / 2⌋ : ℤ) / 10

/-- `const scoreData = Object.entries(averageScores).map(...)`: each dimension
paired with `parseFloat((total / count).toFixed(1))`. -/
def scoreData (lookup : Nat → Option Reviewer) (results : List RRow) :
    List (String × ℚ) :=
  (averageScores lookup results).map (fun p => (p.1, round1 (p.2.1 / (p.2.2 : ℚ))))

/-- First-match lookup in an association list, the reading discipline of a
JavaScript object with unique keys. -/
def assocFind {α : Type} (l : List (String × α)) (d : String) : Option α :=
  (l.find? (fun p => p.1 = d)).map (fun p => p.2)

/-- The sum of the scores of the results whose derived dimension is `d`. -/
def sumD (lookup : Nat → Option Reviewer) (d : String) (results : List RRow) : ℚ :=
  ((results.filter (fun r => dimOf lookup r = d)).map (fun r => r.score)).sum

/-- The number of results whose derived dimension is `d`. -/
def cntD (lookup : Nat → Option Reviewer) (d : String) (results : List RRow) : Nat :=
  (results.filter (fun r => dimOf lookup r = d)).length

/-! ## Shared orchestration state

Both `handleStartBenchmark` callbacks surface outcomes with `toast` calls and
drive external collaborators; we record toasts and every network/gateway
invocation in the state so that "no call occurs" claims are statable. -/

/-- A `toast` notification (`toast.error` / `toast.success` / `toast.warning`). -/
inductive Toast where
  | error (msg : String)
  | success (msg : String)
  | warning (msg : String)
  deriving Repr, DecidableEq

/-- One outbound network or data-gateway invocation. -/
inductive NetCall where
  | impersonate (prompt systemVersion : String) (temperature : Option ℚ)
  | fetchProject (systemVersion projectId token : String)
  | insertRun
  | rpcStartPausedRun (runId : Nat)
  | insertResult
  deriving Repr, DecidableEq

/-- A row of the `reviewers` table as used by the orchestration (only the id is
read: `reviewer.id`). -/
structure ReviewerRow where
  id : Nat
  deriving Repr, DecidableEq

/-- A row of the `benchmark_scenarios` table, restricted to the fields the
orchestration reads, together with its associated `reviewers`
(`scenario.reviewers`). -/
structure Scenario where
  id : Nat
  name : String
  prompt : String
  llm_temperature : ℚ
  reviewers : List ReviewerRow
  deriving Repr

/-- A row of the `user_secrets` table; the JSON object
`JSON.parse(userSecrets[0].secret)` is modelled in already-parsed form as a
key/value association list. -/
structure SecretRow where
  secret : List (String × String)
  deriving Repr

/-- `secrets.GPT_ENGINEER_TEST_TOKEN`. -/
def gptEngineerTestToken (row : SecretRow) : Option String :=
  assocFind row.secret "GPT_ENGINEER_TEST_TOKEN"

/-! ## BenchmarkRunner variant (`src/components/benchmark/BenchmarkRunner.jsx`)

The component receives `addRun` and `addResult` props but its
`handleStartBenchmark` never invokes either; run rows are inserted directly
through the gateway (`supabase.from('runs').insert(...)`). -/

/-- The destructured result of `impersonateUser` in the BenchmarkRunner
variant: `{ projectId, initialRequest, messages }`. -/
structure ImpB where
  projectId : String
  initialRequest : String
  messages : List String
  deriving Repr, DecidableEq

/-- The response of `fetch(`...`/projects/...`)`: success flag (`.ok`),
`statusText`, and the `link` field of the decoded JSON body. -/
structure FetchResp where
  ok : Bool
  statusText : String
  link : String
  deriving Repr, DecidableEq

/-- A row of the `runs` table as inserted by the BenchmarkRunner variant. -/
structure RunRowB where
  id : Nat
  scenario_id : Nat
  system_version : String
  project_id : String
  user_id : String
  link : String
  state : String
  deriving Repr, DecidableEq

/-- The events yielded by `impersonateUser` in the StartBenchmark variant;
`dataId` models `event.data?.id`. -/
structure ImpEvent where
  type : String
  dataId : Option String
  deriving Repr, DecidableEq

/-- A row of the `runs` table as inserted by the StartBenchmark variant (no
`link`, no `state`). -/
structure RunRowS where
  id : Nat
  scenario_id : Nat
  system_version : String
  project_id : String
  user_id : String
  deriving Repr, DecidableEq

/-- The `result` JSON payload written with each result row by the
StartBenchmark variant. -/
structure ResultPayload where
  impersonation_results : List ImpEvent
  system_version : String
  deriving Repr, DecidableEq

/-- A row of the results table as inserted by `addResult.mutateAsync`. -/
structure ResultRowS where
  id : Nat
  run_id : Nat
  reviewer_id : Nat
  result : ResultPayload
  deriving Repr, DecidableEq

/-- Stubbed external collaborators of the BenchmarkRunner variant.  Errors of
the gateway insert and of the rpc are injectable; `insertRunError row = none`
means the insert succeeds. -/
structure EnvB where
  impersonate : String → String → ℚ → Except String ImpB
  fetchProject : String → String → String → FetchResp
  insertRunError : RunRowB → Option String
  startPausedRun : Nat → Except String Bool

/-- Observable state threaded through the BenchmarkRunner variant: the `runs`
table, the results table (which this variant never writes — `addResult` is an
unused prop), the toast log, the call log and the `isRunning` flag. -/
structure StateB where
  runs : List RunRowB
  results : List ResultRowS
  toasts : List Toast
  calls : List NetCall
  isRunning : Bool
  deriving Repr

def addToastB (st : StateB) (t : Toast) : StateB :=
  { st with toasts := st.toasts ++ [t] }

def logCallB (st : StateB) (c : NetCall) : StateB :=
  { st with calls := st.calls ++ [c] }

/-- The body of the `for (const scenarioId of selectedScenarios)` loop of
`BenchmarkRunner.handleStartBenchmark`, for a single scenario id.  A thrown
exception is an `Except.error` carrying the message and the state at the
throw. -/
def stepB (env : EnvB) (systemVersion token userId : String)
    (scenarios : List Scenario) (st : StateB) (scenarioId : Nat) :
    Except (String × StateB) StateB :=
  match scenarios.find? (fun s => s.id = scenarioId) with
  | none =>
      -- `scenarios.find(...)` is `undefined`, so `scenario.prompt` throws
      .error ("TypeError: Cannot read properties of undefined (reading 'prompt')", st)
  | some scenario =>
      let st := logCallB st (.impersonate scenario.prompt systemVersion (some scenario.llm_temperature))
      match env.impersonate scenario.prompt systemVersion scenario.llm_temperature with
      | .error e => .error (e, st)
      | .ok imp =>
          let st := logCallB st (.fetchProject systemVersion imp.projectId token)
          let resp := env.fetchProject systemVersion imp.projectId token
          if resp.ok = false then
            .error ("Failed to fetch project details: " ++ resp.statusText, st)
          else
            let row : RunRowB :=
              { id := st.runs.length, scenario_id := scenarioId,
                system_version := systemVersion, project_id := imp.projectId,
                user_id := userId, link := resp.link, state := "paused" }
            let st := logCallB st .insertRun
            match env.insertRunError row with
            | some e => .error ("Failed to create run: " ++ e, st)
            | none =>
                let st := { st with runs := st.runs ++ [row] }
                let st := logCallB st (.rpcStartPausedRun row.id)
                match env.startPausedRun row.id with
                | .error e => .error ("Failed to start run: " ++ e, st)
                | .ok startedRun =>
                    .ok (addToastB st (if startedRun then
                          .success ("Benchmark started for scenario: " ++ scenario.name)
                        else
                          .warning ("Benchmark created but not started for scenario: " ++ scenario.name)))

/-- The scenario loop of `BenchmarkRunner.handleStartBenchmark`: sequential,
stopping at the first thrown exception. -/
def processB (env : EnvB) (systemVersion token userId : String)
    (scenarios : List Scenario) :
    List Nat → StateB → Except (String × StateB) StateB
  | [], st => .ok st
  | scenarioId :: rest, st =>
      match stepB env systemVersion token userId scenarios st scenarioId with
      | .error e => .error e
      | .ok st' => processB env systemVersion token userId scenarios rest st'

/-- `handleStartBenchmark` of `BenchmarkRunner.jsx`: guards, `setIsRunning(true)`,
the try/catch around the scenario loop, and the final toasts.  The catch path
resets `isRunning`; the success path does not. -/
def handleStartBenchmarkB (env : EnvB) (selectedScenarios : List Nat)
    (scenarios : List Scenario) (systemVersion sessionUserId : String)
    (userSecrets : List SecretRow) (st : StateB) : StateB :=
  if selectedScenarios.length = 0 then
    addToastB st (.error "Please select at least one scenario to run.")
  else
    match userSecrets with
    | [] => addToastB st (.error "No user secrets found. Please set up your GPT Engineer test token.")
    | secretRow :: _ =>
        match gptEngineerTestToken secretRow with
        | none =>
            addToastB st (.error "GPT Engineer test token not found. Please set it up in your secrets.")
        | some token =>
            if token = "" then
              addToastB st (.error "GPT Engineer test token not found. Please set it up in your secrets.")
            else
              let st1 := { st with isRunning := true }
              match processB env systemVersion token sessionUserId scenarios selectedScenarios st1 with
              | .ok st2 => addToastB st2 (.success "All benchmarks started successfully!")
              | .error (_, st2) =>
                  { addToastB st2 (.error "An error occurred while starting the benchmark. Please try again.") with
                      isRunning := false }

/-- `disabled={isRunning}` on the start button of `BenchmarkRunner`. -/
def startButtonDisabled (isRunning : Bool) : Bool := isRunning

/-! ## StartBenchmark variant (`src/pages/StartBenchmark.jsx`) -/

/-- `impersonationResults.find(result => result.type === 'project_created')?.data?.id`. -/
def extractProjectId (events : List ImpEvent) : Option String :=
  (events.find? (fun e => e.type = "project_created")).bind (fun e => e.dataId)

/-- Stubbed external collaborators of the StartBenchmark variant.  This
variant's `impersonateUser` is called without a temperature and yields a list
of typed events; `addRun`/`addResult` mutation failures are injectable. -/
structure EnvS where
  impersonate : String → String → Except String (List ImpEvent)
  addRunError : RunRowS → Option String
  addResultError : ResultRowS → Option String

/-- Observable state threaded through the StartBenchmark variant. -/
structure StateS where
  runs : List RunRowS
  results : List ResultRowS
  toasts : List Toast
  calls : List NetCall
  isRunning : Bool
  navigated : Bool
  deriving Repr

def addToastS (st : StateS) (t : Toast) : StateS :=
  { st with toasts := st.toasts ++ [t] }

def logCallS (st : StateS) (c : NetCall) : StateS :=
  { st with calls := st.calls ++ [c] }

/-- The `for (const reviewer of scenario.reviewers)` loop: one
`addResult.mutateAsync` per reviewer, with the shared payload. -/
def addResultsLoopS (env : EnvS) (runId : Nat) (payload : ResultPayload) :
    List ReviewerRow → StateS → Except (String × StateS) StateS
  | [], st => .ok st
  | reviewer :: rest, st =>
      let row : ResultRowS :=
        { id := st.results.length, run_id := runId,
          reviewer_id := reviewer.id, result := payload }
      let st := logCallS st .insertResult
      match env.addResultError row with
      | some e => .error (e, st)
      | none => addResultsLoopS env runId payload rest { st with results := st.results ++ [row] }

/-- The body of the `for (const scenarioId of selectedScenarios)` loop of
`StartBenchmark.handleStartBenchmark`, for a single scenario id. -/
def stepS (env : EnvS) (systemVersion userId : String)
    (scenarios : List Scenario) (st : StateS) (scenarioId : Nat) :
    Except (String × StateS) StateS :=
  match scenarios.find? (fun s => s.id = scenarioId) with
  | none =>
      -- `scenarios.find(...)` is `undefined`, so `scenario.prompt` throws
      .error ("TypeError: Cannot read properties of undefined (reading 'prompt')", st)
  | some scenario =>
      let st := logCallS st (.impersonate scenario.prompt systemVersion none)
      match env.impersonate scenario.prompt systemVersion with
      | .error e => .error (e, st)
      | .ok impersonationResults =>
          -- `if (!projectId) throw ...`: both a missing and an empty id are falsy
          match extractProjectId impersonationResults with
          | none => .error ("Failed to get project ID from impersonation results", st)
          | some projectId =>
              if projectId = "" then
                .error ("Failed to get project ID from impersonation results", st)
              else
                let row : RunRowS :=
                  { id := st.runs.length, scenario_id := scenarioId,
                    system_version := systemVersion, project_id := projectId,
                    user_id := userId }
                let st := logCallS st .insertRun
                match env.addRunError row with
                | some e => .error (e, st)
                | none =>
                    let st := { st with runs := st.runs ++ [row] }
                    let payload : ResultPayload :=
                      { impersonation_results := impersonationResults,
                        system_version := systemVersion }
                    match addResultsLoopS env row.id payload scenario.reviewers st with
                    | .error e => .error e
                    | .ok st' =>
                        .ok (addToastS st' (.success ("Benchmark completed for scenario: " ++ scenario.name)))

/-- The scenario loop of `StartBenchmark.handleStartBenchmark`. -/
def processS (env : EnvS) (systemVersion userId : String)
    (scenarios : List Scenario) :
    List Nat → StateS → Except (String × StateS) StateS
  | [], st => .ok st
  | scenarioId :: rest, st =>
      match stepS env systemVersion userId scenarios st scenarioId with
      | .error e => .error e
      | .ok st' => processS env systemVersion userId scenarios rest st'

/-- `handleStartBenchmark` of `StartBenchmark.jsx`: the empty-selection guard,
`setIsRunning(true)`, the try/catch/finally around the loop, the final success
toast and `navigate("/")`.  The `finally` clause resets `isRunning` on both
paths. -/
def handleStartBenchmarkS (env : EnvS) (selectedScenarios : List Nat)
    (scenarios : List Scenario) (systemVersion sessionUserId : String)
    (st : StateS) : StateS :=
  if selectedScenarios.length = 0 then
    addToastS st (.error "Please select at least one scenario to run.")
  else
    let st1 := { st with isRunning := true }
    match processS env systemVersion sessionUserId scenarios selectedScenarios st1 with
    | .ok st2 =>
        { addToastS st2 (.success "All benchmarks completed successfully!") with
            navigated := true, isRunning := false }
    | .error (_, st2) =>
        { addToastS st2 (.error "An error occurred while running the benchmark. Please try again.") with
            isRunning := false }

/-! ## Aggregator lemmas -/

lemma assocFind_nil {α : Type} (d : String) : assocFind ([] : List (String × α)) d = none := rfl

lemma assocFind_cons {α : Type} (x : String × α) (l : List (String × α)) (d : String) :
    assocFind (x :: l) d = if x.1 = d then some x.2 else assocFind l d := by
  by_cases h : x.1 = d <;> simp [assocFind, List.find?_cons, h]

lemma assocFind_concat {α : Type} (l : List (String × α)) (k : String) (v : α) (d : String) :
    assocFind (l ++ [(k, v)]) d =
      match assocFind l d with
      | some w => some w
      | none => if k = d then some v else none := by
  induction l with
  | nil => by_cases h : k = d <;> simp [assocFind_nil, assocFind_cons, h]
  | cons p t ih =>
      by_cases h : p.1 = d
      · simp [assocFind_cons, h]
      · simpa [assocFind_cons, h] using ih

lemma assocFind_update (l : List (String × ℚ × Nat)) (k : String) (s : ℚ) (d : String) :
    assocFind (l.map (fun p => if p.1 = k then (p.1, p.2.1 + s, p.2.2 + 1) else p)) d =
      if k = d then (assocFind l d).map (fun w => (w.1 + s, w.2 + 1)) else assocFind l d := by
  induction l with
  | nil => by_cases h : k = d <;> simp [assocFind_nil, h]
  | cons p t ih =>
      by_cases h1 : p.1 = k <;> by_cases h3 : p.1 = d
      · have h2 : k = d := h1.symm.trans h3
        simp [assocFind_cons, h1, h3, h2]
      · have h2 : ¬ k = d := fun hc => h3 (h1.trans hc)
        simpa [assocFind_cons, h1, h3, h2] using ih
      · have h2 : ¬ k = d := fun hc => h1 (h3.trans hc.symm)
        have h4 : ¬ d = k := fun hc => h2 hc.symm
        simp [assocFind_cons, h1, h3, h2, h4]
      · simpa [assocFind_cons, h1, h3] using ih

lemma assocFind_eq_none_of_any_eq_false {α : Type} (l : List (String × α)) (k : String)
    (h : l.any (fun p => p.1 = k) = false) : assocFind l k = none := by
  rw [assocFind, List.find?_eq_none.mpr]
  · rfl
  · intro x hx
    simp only [List.any_eq_false] at h
    simpa using h x hx

lemma assocFind_isSome_of_any_eq_true {α : Type} (l : List (String × α)) (k : String)
    (h : l.any (fun p => p.1 = k) = true) : (assocFind l k).isSome := by
  rw [assocFind]
  simp only [List.any_eq_true] at h
  obtain ⟨p, hp, hk⟩ := h
  have hfind : (List.find? (fun p => decide (p.1 = k)) l).isSome :=
    List.find?_isSome.mpr ⟨p, hp, hk⟩
  simpa using hfind

lemma assocFind_accStep (lookup : Nat → Option Reviewer) (acc : List (String × ℚ × Nat))
    (r : RRow) (d : String) :
    assocFind (accStep lookup acc r) d =
      if dimOf lookup r = d then
        some (match assocFind acc d with
              | some (t, c) => (t + r.score, c + 1)
              | none => (r.score, 1))
      else assocFind acc d := by
  simp only [accStep]
  by_cases hany : acc.any (fun p => p.1 = dimOf lookup r)
  · rw [if_pos hany, assocFind_update]
    by_cases hd : dimOf lookup r = d
    · subst hd
      have hs := assocFind_isSome_of_any_eq_true acc _ hany
      obtain ⟨w, hw⟩ := Option.isSome_iff_exists.mp hs
      simp [hw]
    · simp [hd]
  · rw [if_neg hany, assocFind_concat]
    by_cases hd : dimOf lookup r = d
    · subst hd
      rw [assocFind_eq_none_of_any_eq_false acc _ (Bool.eq_false_iff.mpr hany)]
    · cases hfind : assocFind acc d <;> simp [hd, hfind]

lemma sumD_nil (lookup : Nat → Option Reviewer) (d : String) : sumD lookup d [] = 0 := rfl

lemma cntD_nil (lookup : Nat → Option Reviewer) (d : String) : cntD lookup d [] = 0 := rfl

lemma sumD_cons (lookup : Nat → Option Reviewer) (d : String) (r : RRow) (rs : List RRow) :
    sumD lookup d (r :: rs) =
      (if dimOf lookup r = d then r.score else 0) + sumD lookup d rs := by
  by_cases h : dimOf lookup r = d <;> simp [sumD, List.filter_cons, h]

lemma cntD_cons (lookup : Nat → Option Reviewer) (d : String) (r : RRow) (rs : List RRow) :
    cntD lookup d (r :: rs) =
      (if dimOf lookup r = d then 1 else 0) + cntD lookup d rs := by
  by_cases h : dimOf lookup r = d
  · simp [cntD, List.filter_cons, h]
    omega
  · simp [cntD, List.filter_cons, h]

/-- Characterization of the reduce: the accumulated entry for a dimension is
the entry of the initial accumulator augmented by the sum and count of the
matching results. -/
lemma assocFind_foldl_accStep (lookup : Nat → Option Reviewer) (rs : List RRow) :
    ∀ (acc : List (String × ℚ × Nat)) (d : String),
    assocFind (rs.foldl (accStep lookup) acc) d =
      match assocFind acc d with
      | some (t, c) => some (t + sumD lookup d rs, c + cntD lookup d rs)
      | none =>
          if cntD lookup d rs = 0 then none
          else some (sumD lookup d rs, cntD lookup d rs) := by
  induction rs with
  | nil =>
      intro acc d
      cases hfind : assocFind acc d <;> simp [sumD_nil, cntD_nil, hfind]
  | cons r rs ih =>
      intro acc d
      rw [List.foldl_cons, ih, assocFind_accStep, sumD_cons, cntD_cons]
      by_cases hd : dimOf lookup r = d
      · simp only [if_pos hd]
        cases hfind : assocFind acc d with
        | none =>
            have h1 : ¬ (1 + cntD lookup d rs = 0) := by omega
            simp [h1]
        | some w =>
            obtain ⟨t, c⟩ := w
            simp [add_assoc]
      · simp only [if_neg hd]
        simp

lemma assocFind_averageScores (lookup : Nat → Option Reviewer) (rs : List RRow) (d : String) :
    assocFind (averageScores lookup rs) d =
      if cntD lookup d rs = 0 then none
      else some (sumD lookup d rs, cntD lookup d rs) := by
  rw [averageScores, assocFind_foldl_accStep lookup rs [] d, assocFind_nil]

lemma assocFind_map_snd (l : List (String × ℚ × Nat)) (d : String) :
    assocFind (l.map (fun p => (p.1, round1 (p.2.1 / (p.2.2 : ℚ))))) d =
      (assocFind l d).map (fun w => round1 (w.1 / (w.2 : ℚ))) := by
  induction l with
  | nil => rfl
  | cons p t ih =>
      by_cases h : p.1 = d
      · simp [assocFind_cons, h]
      · simpa [assocFind_cons, h] using ih

/-- The entry displayed for a dimension: mean of that dimension's scores,
rounded, present exactly when the dimension has at least one result. -/
lemma assocFind_scoreData (lookup : Nat → Option Reviewer) (rs : List RRow) (d : String) :
    assocFind (scoreData lookup rs) d =
      if cntD lookup d rs = 0 then none
      else some (round1 (sumD lookup d rs / (cntD lookup d rs : ℚ))) := by
  rw [scoreData, assocFind_map_snd, assocFind_averageScores]
  by_cases h : cntD lookup d rs = 0 <;> simp [h]

lemma keys_accStep (lookup : Nat → Option Reviewer) (acc : List (String × ℚ × Nat)) (r : RRow) :
    (accStep lookup acc r).map Prod.fst =
      if acc.any (fun p => p.1 = dimOf lookup r) then acc.map Prod.fst
      else acc.map Prod.fst ++ [dimOf lookup r] := by
  simp only [accStep]
  by_cases hany : acc.any (fun p => p.1 = dimOf lookup r)
  · rw [if_pos hany, if_pos hany, List.map_map]
    refine List.map_congr_left (fun p _ => ?_)
    by_cases h : p.1 = dimOf lookup r <;> simp [h]
  · rw [if_neg hany, if_neg hany]
    simp

lemma mem_keys_iff_isSome {α : Type} (l : List (String × α)) (d : String) :
    d ∈ l.map Prod.fst ↔ (assocFind l d).isSome := by
  induction l with
  | nil => simp [assocFind_nil]
  | cons p t ih =>
      by_cases h : p.1 = d
      · subst h
        simp [assocFind_cons]
      · have h2 : ¬ d = p.1 := fun hc => h hc.symm
        simp [assocFind_cons, h, h2, ih]

lemma keys_nodup_foldl (lookup : Nat → Option Reviewer) (rs : List RRow) :
    ∀ acc : List (String × ℚ × Nat), (acc.map Prod.fst).Nodup →
      ((rs.foldl (accStep lookup) acc).map Prod.fst).Nodup := by
  induction rs with
  | nil => intro acc h; simpa using h
  | cons r rs ih =>
      intro acc h
      rw [List.foldl_cons]
      apply ih
      rw [keys_accStep]
      by_cases hany : acc.any (fun p => p.1 = dimOf lookup r)
      · rwa [if_pos hany]
      · rw [if_neg hany]
        have hnot : dimOf lookup r ∉ acc.map Prod.fst := by
          intro hmem
          rw [mem_keys_iff_isSome,
            assocFind_eq_none_of_any_eq_false acc _ (Bool.eq_false_iff.mpr hany)] at hmem
          simp at hmem
        simp [List.nodup_append, h, hnot]

lemma keys_scoreData (lookup : Nat → Option Reviewer) (rs : List RRow) :
    (scoreData lookup rs).map Prod.fst = (averageScores lookup rs).map Prod.fst := by
  rw [scoreData, List.map_map]
  rfl

lemma cntD_eq_zero_iff (lookup : Nat → Option Reviewer) (d : String) (rs : List RRow) :
    cntD lookup d rs = 0 ↔ d ∉ rs.map (dimOf lookup) := by
  rw [cntD, List.length_eq_zero, List.filter_eq_nil_iff]
  simp only [decide_eq_true_eq, List.mem_map]
  constructor
  · rintro h ⟨r, hr, rfl⟩
    exact h r hr rfl
  · intro h r hr hd
    exact h ⟨r, hr, hd⟩

lemma sumD_perm (lookup : Nat → Option Reviewer) (d : String) {rs₁ rs₂ : List RRow}
    (h : rs₁.Perm rs₂) : sumD lookup d rs₁ = sumD lookup d rs₂ :=
  List.Perm.sum_eq ((h.filter _).map _)

lemma cntD_perm (lookup : Nat → Option Reviewer) (d : String) {rs₁ rs₂ : List RRow}
    (h : rs₁.Perm rs₂) : cntD lookup d rs₁ = cntD lookup d rs₂ :=
  (h.filter _).length_eq

/-! ## Claim C2 -/

/-- C2 (counterexample to the claim as stated): a Result whose Reviewer IS
resolved but whose `dimension` field is the empty string is grouped under
`"Unknown"`, not under its own (empty) dimension label, because the source
uses `reviewer?.dimension || 'Unknown'` and `""` is falsy.  So for the
single-result input with a resolvable Reviewer of dimension `""`, the
aggregate has no entry for the label `""` — its only entry is `"Unknown"`. -/
theorem C2_counterexample :
    (scoreData (fun _ => some ⟨""⟩) [⟨0, 8⟩]).map Prod.fst = ["Unknown"] ∧
    assocFind (scoreData (fun _ => some ⟨""⟩) [⟨0, 8⟩]) "" = none :=
  ⟨rfl, rfl⟩

/-- C2 (amended): for every sequence of Results and every reviewer lookup, the
aggregator returns exactly one entry per distinct derived dimension label,
where a Result whose Reviewer cannot be resolved — or whose Reviewer's
dimension label is the empty string — is grouped under `"Unknown"`, and each
entry's value equals the sum of that dimension's scores divided by their
count, rounded to one decimal place. -/
theorem C2_aggregate_mean (lookup : Nat → Option Reviewer) (results : List RRow) :
    ((scoreData lookup results).map Prod.fst).Nodup ∧
    ∀ d : String,
      (d ∈ (scoreData lookup results).map Prod.fst ↔ d ∈ results.map (dimOf lookup)) ∧
      assocFind (scoreData lookup results) d =
        if cntD lookup d results = 0 then none
        else some (round1 (sumD lookup d results / (cntD lookup d results : ℚ))) := by
  refine ⟨?_, fun d => ⟨?_, assocFind_scoreData lookup results d⟩⟩
  · rw [keys_scoreData]
    exact keys_nodup_foldl lookup results [] (by simp)
  · rw [mem_keys_iff_isSome, assocFind_scoreData]
    by_cases h : cntD lookup d results = 0
    · rw [if_pos h]
      exact iff_of_false (by simp) ((cntD_eq_zero_iff lookup d results).mp h)
    · rw [if_neg h]
      refine iff_of_true (by simp) ?_
      by_contra hmem
      exact h ((cntD_eq_zero_iff lookup d results).mpr hmem)

/-! ## Claim C8 -/

/-- C8: the aggregator is invariant under permutation of its input sequence —
two permuted Result sequences yield the same dimension-label-to-mean-score
mapping — and on the empty sequence it returns the empty mapping. -/
theorem C8_aggregate_perm (lookup : Nat → Option Reviewer) (rs₁ rs₂ : List RRow)
    (h : rs₁.Perm rs₂) :
    (∀ d : String, assocFind (scoreData lookup rs₁) d = assocFind (scoreData lookup rs₂) d) ∧
    scoreData lookup ([] : List RRow) = [] := by
  refine ⟨fun d => ?_, rfl⟩
  rw [assocFind_scoreData, assocFind_scoreData, sumD_perm lookup d h, cntD_perm lookup d h]

/-- C8 witness: the permutation invariance applied to a concrete two-element
swap, read off at the dimension `"clarity"`. -/
theorem C8_aggregate_perm_witness :
    assocFind (scoreData (fun _ => some ⟨"clarity"⟩) [⟨0, 8⟩, ⟨1, 6⟩]) "clarity" =
      assocFind (scoreData (fun _ => some ⟨"clarity"⟩) [⟨1, 6⟩, ⟨0, 8⟩]) "clarity" :=
  (C8_aggregate_perm (fun _ => some ⟨"clarity"⟩) [⟨0, 8⟩, ⟨1, 6⟩] [⟨1, 6⟩, ⟨0, 8⟩]
    (List.Perm.swap (⟨1, 6⟩ : RRow) (⟨0, 8⟩ : RRow) [])).1 "clarity"

/-! ## Orchestrator lemmas (BenchmarkRunner variant) -/

/-- The state carried by an orchestration outcome, successful or thrown. -/
def stateOfB : Except (String × StateB) StateB → StateB
  | .ok st => st
  | .error (_, st) => st

@[simp] lemma runs_addToastB (st : StateB) (t : Toast) : (addToastB st t).runs = st.runs := rfl

@[simp] lemma runs_logCallB (st : StateB) (c : NetCall) : (logCallB st c).runs = st.runs := rfl

@[simp] lemma results_addToastB (st : StateB) (t : Toast) :
    (addToastB st t).results = st.results := rfl

@[simp] lemma results_logCallB (st : StateB) (c : NetCall) :
    (logCallB st c).results = st.results := rfl

@[simp] lemma isRunning_addToastB (st : StateB) (t : Toast) :
    (addToastB st t).isRunning = st.isRunning := rfl

@[simp] lemma isRunning_logCallB (st : StateB) (c : NetCall) :
    (logCallB st c).isRunning = st.isRunning := rfl

@[simp] lemma toasts_logCallB (st : StateB) (c : NetCall) :
    (logCallB st c).toasts = st.toasts := rfl

@[simp] lemma toasts_addToastB (st : StateB) (t : Toast) :
    (addToastB st t).toasts = st.toasts ++ [t] := rfl

lemma processB_append (env : EnvB) (sys token uid : String) (scens : List Scenario)
    (l₁ l₂ : List Nat) (st : StateB) :
    processB env sys token uid scens (l₁ ++ l₂) st =
      match processB env sys token uid scens l₁ st with
      | .error e => .error e
      | .ok st' => processB env sys token uid scens l₂ st' := by
  induction l₁ generalizing st with
  | nil => rfl
  | cons x xs ih =>
      rw [List.cons_append]
      simp only [processB]
      cases stepB env sys token uid scens st x with
      | error e => rfl
      | ok st' => exact ih st'

/-- Within one scenario, the runs table is only appended to, on both the
successful and the thrown path. -/
lemma stepB_runs_extend (env : EnvB) (sys token uid : String) (scens : List Scenario)
    (st : StateB) (sid : Nat) :
    ∃ suf, (stateOfB (stepB env sys token uid scens st sid)).runs = st.runs ++ suf := by
  simp only [stepB]
  repeat' split
  all_goals first
    | exact ⟨_, rfl⟩
    | (refine ⟨[], ?_⟩; simp [stateOfB])

lemma stepB_results (env : EnvB) (sys token uid : String) (scens : List Scenario)
    (st : StateB) (sid : Nat) :
    (stateOfB (stepB env sys token uid scens st sid)).results = st.results := by
  simp only [stepB]
  repeat' split
  all_goals simp [stateOfB]

lemma stepB_isRunning (env : EnvB) (sys token uid : String) (scens : List Scenario)
    (st : StateB) (sid : Nat) :
    (stateOfB (stepB env sys token uid scens st sid)).isRunning = st.isRunning := by
  simp only [stepB]
  repeat' split
  all_goals simp [stateOfB]

lemma processB_runs_extend (env : EnvB) (sys token uid : String) (scens : List Scenario) :
    ∀ (sel : List Nat) (st : StateB),
      ∃ suf, (stateOfB (processB env sys token uid scens sel st)).runs = st.runs ++ suf := by
  intro sel
  induction sel with
  | nil => intro st; exact ⟨[], by simp [processB, stateOfB]⟩
  | cons sid rest ih =>
      intro st
      simp only [processB]
      cases hstep : stepB env sys token uid scens st sid with
      | error e =>
          obtain ⟨suf, hsuf⟩ := stepB_runs_extend env sys token uid scens st sid
          rw [hstep] at hsuf
          exact ⟨suf, hsuf⟩
      | ok st' =>
          obtain ⟨suf₁, hsuf₁⟩ := stepB_runs_extend env sys token uid scens st sid
          rw [hstep] at hsuf₁
          obtain ⟨suf₂, hsuf₂⟩ := ih st'
          refine ⟨suf₁ ++ suf₂, ?_⟩
          rw [hsuf₂, show st'.runs = st.runs ++ suf₁ from hsuf₁, List.append_assoc]

lemma processB_results (env : EnvB) (sys token uid : String) (scens : List Scenario) :
    ∀ (sel : List Nat) (st : StateB),
      (stateOfB (processB env sys token uid scens sel st)).results = st.results := by
  intro sel
  induction sel with
  | nil => intro st; simp [processB, stateOfB]
  | cons sid rest ih =>
      intro st
      simp only [processB]
      cases hstep : stepB env sys token uid scens st sid with
      | error e =>
          have h := stepB_results env sys token uid scens st sid
          rw [hstep] at h
          exact h
      | ok st' =>
          have h := stepB_results env sys token uid scens st sid
          rw [hstep] at h
          rw [ih st']
          exact h

lemma processB_isRunning (env : EnvB) (sys token uid : String) (scens : List Scenario) :
    ∀ (sel : List Nat) (st : StateB),
      (stateOfB (processB env sys token uid scens sel st)).isRunning = st.isRunning := by
  intro sel
  induction sel with
  | nil => intro st; simp [processB, stateOfB]
  | cons sid rest ih =>
      intro st
      simp only [processB]
      cases hstep : stepB env sys token uid scens st sid with
      | error e =>
          have h := stepB_isRunning env sys token uid scens st sid
          rw [hstep] at h
          exact h
      | ok st' =>
          have h := stepB_isRunning env sys token uid scens st sid
          rw [hstep] at h
          rw [ih st']
          exact h

/-! ## Claim C4 -/

/-- C4: with an empty scenario selection, both `handleStartBenchmark` variants
surface the validation-error toast and change nothing else — the runs and
results tables, the call log and the `isRunning` flag are exactly those of the
initial state, so no Gateway or network call occurs and no run is started. -/
theorem C4_empty_selection (envB : EnvB) (envS : EnvS) (scens : List Scenario)
    (sys uid : String) (secrets : List SecretRow) (stB : StateB) (stS : StateS) :
    handleStartBenchmarkB envB [] scens sys uid secrets stB =
      { stB with toasts := stB.toasts ++ [Toast.error "Please select at least one scenario to run."] } ∧
    handleStartBenchmarkS envS [] scens sys uid stS =
      { stS with toasts := stS.toasts ++ [Toast.error "Please select at least one scenario to run."] } :=
  ⟨rfl, rfl⟩

/-! ## Claim C5 -/

/-- C5: when the per-user `GPT_ENGINEER_TEST_TOKEN` credential is absent or
unresolvable — no secrets row at all, no token key in the parsed secret, or an
empty (falsy) token — the BenchmarkRunner batch stops with an error toast and
the state is otherwise untouched: in particular the call log is unchanged, so
no network or Gateway call was made. -/
theorem C5_missing_token (env : EnvB) (sel : List Nat) (scens : List Scenario)
    (sys uid : String) (secrets : List SecretRow) (st : StateB)
    (hsel : sel ≠ [])
    (htok : secrets = [] ∨ ∃ row rest, secrets = row :: rest ∧
      (gptEngineerTestToken row = none ∨ gptEngineerTestToken row = some "")) :
    ∃ msg, handleStartBenchmarkB env sel scens sys uid secrets st =
      { st with toasts := st.toasts ++ [Toast.error msg] } := by
  have hlen : ¬ sel.length = 0 := fun h => hsel (List.length_eq_zero.mp h)
  rcases htok with hnil | ⟨row, rest, hcons, htk⟩
  · subst hnil
    refine ⟨"No user secrets found. Please set up your GPT Engineer test token.", ?_⟩
    simp only [handleStartBenchmarkB, if_neg hlen]
    rfl
  · subst hcons
    refine ⟨"GPT Engineer test token not found. Please set it up in your secrets.", ?_⟩
    simp only [handleStartBenchmarkB, if_neg hlen]
    rcases htk with h | h <;> rw [h] <;> rfl

/-- C5 witness: a concrete invocation with a nonempty selection and no secrets
row. -/
theorem C5_missing_token_witness :
    ∃ msg, handleStartBenchmarkB
        { impersonate := fun _ _ _ => .ok ⟨"p1", "req", []⟩,
          fetchProject := fun _ _ _ => ⟨true, "OK", "l"⟩,
          insertRunError := fun _ => none,
          startPausedRun := fun _ => .ok true }
        [1] [] "v" "u" [] ⟨[], [], [], [], false⟩ =
      { (⟨[], [], [], [], false⟩ : StateB) with toasts := [Toast.error msg] } :=
  C5_missing_token _ [1] [] "v" "u" [] ⟨[], [], [], [], false⟩
    (by simp) (Or.inl rfl)

/-! ## Claim C10 -/

/-- C10: in the BenchmarkRunner variant `isRunning` is set before the batch
and reset only in the catch block, so after a batch in which every scenario
succeeds the flag is still `true` and the start button, whose `disabled` prop
is `isRunning`, stays disabled. -/
theorem C10_success_keeps_running (env : EnvB) (sel : List Nat) (scens : List Scenario)
    (sys uid : String) (row : SecretRow) (rest : List SecretRow) (token : String)
    (st st' : StateB)
    (hsel : sel ≠ [])
    (htok : gptEngineerTestToken row = some token) (htok2 : ¬ token = "")
    (hok : processB env sys token uid scens sel { st with isRunning := true } = .ok st') :
    (handleStartBenchmarkB env sel scens sys uid (row :: rest) st).isRunning = true ∧
    startButtonDisabled (handleStartBenchmarkB env sel scens sys uid (row :: rest) st).isRunning = true := by
  have hlen : ¬ sel.length = 0 := fun h => hsel (List.length_eq_zero.mp h)
  have hrun : st'.isRunning = true := by
    have h := processB_isRunning env sys token uid scens sel { st with isRunning := true }
    rw [hok] at h
    exact h
  have hmain : (handleStartBenchmarkB env sel scens sys uid (row :: rest) st).isRunning = true := by
    simp only [handleStartBenchmarkB, if_neg hlen]
    rw [htok]
    simp only [if_neg htok2]
    rw [hok]
    exact hrun
  exact ⟨hmain, hmain⟩

/-! ## Claim C7 -/

/-- C7: a selected scenario id that is absent from the loaded scenario set is
fatal — the batch throws (the `undefined` scenario is dereferenced), the error
is caught at the batch boundary, no run row is persisted for the missing
scenario or any later one (the final runs table is exactly the one left by the
preceding scenarios), and the generic failure toast is shown. -/
theorem C7_missing_scenario (env : EnvB) (scens : List Scenario) (sys uid : String)
    (row : SecretRow) (rest : List SecretRow) (token : String) (st stp : StateB)
    (pre post : List Nat) (sid : Nat)
    (htok : gptEngineerTestToken row = some token) (htok2 : ¬ token = "")
    (hpre : processB env sys token uid scens pre { st with isRunning := true } = .ok stp)
    (hmiss : scens.find? (fun s => s.id = sid) = none) :
    processB env sys token uid scens (pre ++ sid :: post) { st with isRunning := true } =
      .error ("TypeError: Cannot read properties of undefined (reading 'prompt')", stp) ∧
    (handleStartBenchmarkB env (pre ++ sid :: post) scens sys uid (row :: rest) st).runs = stp.runs ∧
    (handleStartBenchmarkB env (pre ++ sid :: post) scens sys uid (row :: rest) st).isRunning = false ∧
    (handleStartBenchmarkB env (pre ++ sid :: post) scens sys uid (row :: rest) st).toasts =
      stp.toasts ++ [Toast.error "An error occurred while starting the benchmark. Please try again."] := by
  have hproc : processB env sys token uid scens (pre ++ sid :: post) { st with isRunning := true } =
      .error ("TypeError: Cannot read properties of undefined (reading 'prompt')", stp) := by
    rw [processB_append, hpre]
    simp only [processB, stepB, hmiss]
  have hlen : ¬ (pre ++ sid :: post).length = 0 := by simp
  have hhandle : handleStartBenchmarkB env (pre ++ sid :: post) scens sys uid (row :: rest) st =
      { addToastB stp (Toast.error "An error occurred while starting the benchmark. Please try again.") with
          isRunning := false } := by
    simp only [handleStartBenchmarkB, if_neg hlen]
    rw [htok]
    simp only [if_neg htok2]
    rw [hproc]
  refine ⟨hproc, ?_, ?_, ?_⟩ <;> rw [hhandle] <;> rfl

/-! ## Claim C3 -/

/-- C3: when the target-system project-details fetch of some scenario in the
batch returns a non-success response, the thrown error's message carries the
HTTP status text, the batch halts at that scenario (the loop returns that
error immediately), and the final runs table equals the one accumulated by the
preceding scenarios — neither the failing scenario nor any later one persists
a run row.  The user-facing toast on this path is the generic failure
message. -/
theorem C3_project_fetch_failure (env : EnvB) (scens : List Scenario) (sys uid : String)
    (row : SecretRow) (rest : List SecretRow) (token : String) (st stp : StateB)
    (pre post : List Nat) (sid : Nat) (sc : Scenario) (imp : ImpB)
    (htok : gptEngineerTestToken row = some token) (htok2 : ¬ token = "")
    (hpre : processB env sys token uid scens pre { st with isRunning := true } = .ok stp)
    (hfind : scens.find? (fun s => s.id = sid) = some sc)
    (himp : env.impersonate sc.prompt sys sc.llm_temperature = .ok imp)
    (hfetch : (env.fetchProject sys imp.projectId token).ok = false) :
    (∃ st', processB env sys token uid scens (pre ++ sid :: post) { st with isRunning := true } =
        .error ("Failed to fetch project details: " ++
          (env.fetchProject sys imp.projectId token).statusText, st') ∧
      st'.runs = stp.runs ∧ st'.toasts = stp.toasts) ∧
    (handleStartBenchmarkB env (pre ++ sid :: post) scens sys uid (row :: rest) st).runs = stp.runs ∧
    (handleStartBenchmarkB env (pre ++ sid :: post) scens sys uid (row :: rest) st).isRunning = false ∧
    (handleStartBenchmarkB env (pre ++ sid :: post) scens sys uid (row :: rest) st).toasts =
      stp.toasts ++ [Toast.error "An error occurred while starting the benchmark. Please try again."] := by
  have hstep : stepB env sys token uid scens stp sid =
      .error ("Failed to fetch project details: " ++
          (env.fetchProject sys imp.projectId token).statusText,
        logCallB (logCallB stp (NetCall.impersonate sc.prompt sys (some sc.llm_temperature)))
          (NetCall.fetchProject sys imp.projectId token)) := by
    simp only [stepB, hfind, himp]
    rw [if_pos hfetch]
  have hproc : processB env sys token uid scens (pre ++ sid :: post) { st with isRunning := true } =
      .error ("Failed to fetch project details: " ++
          (env.fetchProject sys imp.projectId token).statusText,
        logCallB (logCallB stp (NetCall.impersonate sc.prompt sys (some sc.llm_temperature)))
          (NetCall.fetchProject sys imp.projectId token)) := by
    rw [processB_append, hpre]
    simp only [processB]
    rw [hstep]
  have hlen : ¬ (pre ++ sid :: post).length = 0 := by simp
  have hhandle : handleStartBenchmarkB env (pre ++ sid :: post) scens sys uid (row :: rest) st =
      { addToastB
          (logCallB (logCallB stp (NetCall.impersonate sc.prompt sys (some sc.llm_temperature)))
            (NetCall.fetchProject sys imp.projectId token))
          (Toast.error "An error occurred while starting the benchmark. Please try again.") with
          isRunning := false } := by
    simp only [handleStartBenchmarkB, if_neg hlen]
    rw [htok]
    simp only [if_neg htok2]
    rw [hproc]
  refine ⟨⟨_, hproc, rfl, rfl⟩, ?_, ?_, ?_⟩ <;> rw [hhandle] <;> rfl

/-! ## Claim C6 -/

/-- A successfully inserted run whose `start_paused_run` rpc returns a falsy
result: the step succeeds with the "created but not started" warning toast and
one appended run row. -/
lemma stepB_rpc_falsy (env : EnvB) (sys token uid : String) (scens : List Scenario)
    (st : StateB) (sid : Nat) (sc : Scenario) (imp : ImpB)
    (hfind : scens.find? (fun s => s.id = sid) = some sc)
    (himp : env.impersonate sc.prompt sys sc.llm_temperature = .ok imp)
    (hfetch : (env.fetchProject sys imp.projectId token).ok = true)
    (hins : ∀ r, env.insertRunError r = none)
    (hrpc : env.startPausedRun st.runs.length = .ok false) :
    ∃ st', stepB env sys token uid scens st sid = .ok st' ∧
      st'.toasts = st.toasts ++
        [Toast.warning ("Benchmark created but not started for scenario: " ++ sc.name)] ∧
      st'.runs.length = st.runs.length + 1 := by
  simp only [stepB, hfind, himp]
  rw [if_neg (by rw [hfetch]; simp)]
  simp only [hins, runs_logCallB]
  rw [hrpc]
  exact ⟨_, rfl, by simp, by simp⟩

/-- A successfully inserted run whose `start_paused_run` rpc responds with an
explicit error: the step throws the "Failed to start run" error, with the run
row already appended. -/
lemma stepB_rpc_error (env : EnvB) (sys token uid : String) (scens : List Scenario)
    (st : StateB) (sid : Nat) (sc : Scenario) (imp : ImpB) (e : String)
    (hfind : scens.find? (fun s => s.id = sid) = some sc)
    (himp : env.impersonate sc.prompt sys sc.llm_temperature = .ok imp)
    (hfetch : (env.fetchProject sys imp.projectId token).ok = true)
    (hins : ∀ r, env.insertRunError r = none)
    (hrpc : env.startPausedRun st.runs.length = .error e) :
    ∃ st', stepB env sys token uid scens st sid = .error ("Failed to start run: " ++ e, st') ∧
      st'.runs.length = st.runs.length + 1 := by
  simp only [stepB, hfind, himp]
  rw [if_neg (by rw [hfetch]; simp)]
  simp only [hins, runs_logCallB]
  rw [hrpc]
  exact ⟨_, rfl, by simp⟩

/-- C6: for a scenario whose run insert succeeds, the `start_paused_run`
procedure's outcome decides the tone.  A falsy (`false`) result is non-fatal:
the per-scenario step succeeds, records the run, emits the "created but not
started" warning toast and the loop continues with the remaining scenarios.
An explicit error response is fatal: the loop returns the "Failed to start
run" error at that scenario (its run row already inserted), so no later
scenario is processed. -/
theorem C6_start_paused_run_outcomes (env : EnvB) (scens : List Scenario)
    (sys uid token : String) (st : StateB) (s₁ s₂ : Nat) (rest : List Nat)
    (sc₁ sc₂ : Scenario) (imp₁ imp₂ : ImpB) (e₂ : String)
    (hfind₁ : scens.find? (fun s => s.id = s₁) = some sc₁)
    (himp₁ : env.impersonate sc₁.prompt sys sc₁.llm_temperature = .ok imp₁)
    (hfetch₁ : (env.fetchProject sys imp₁.projectId token).ok = true)
    (hfind₂ : scens.find? (fun s => s.id = s₂) = some sc₂)
    (himp₂ : env.impersonate sc₂.prompt sys sc₂.llm_temperature = .ok imp₂)
    (hfetch₂ : (env.fetchProject sys imp₂.projectId token).ok = true)
    (hins : ∀ r, env.insertRunError r = none)
    (hrpc₁ : env.startPausedRun st.runs.length = .ok false)
    (hrpc₂ : env.startPausedRun (st.runs.length + 1) = .error e₂) :
    ∃ st₁, stepB env sys token uid scens st s₁ = .ok st₁ ∧
      st₁.toasts = st.toasts ++
        [Toast.warning ("Benchmark created but not started for scenario: " ++ sc₁.name)] ∧
      st₁.runs.length = st.runs.length + 1 ∧
      ∃ st₂, processB env sys token uid scens (s₁ :: s₂ :: rest) st =
          .error ("Failed to start run: " ++ e₂, st₂) ∧
        st₂.runs.length = st.runs.length + 2 := by
  obtain ⟨st₁, h1, h1t, h1len⟩ :=
    stepB_rpc_falsy env sys token uid scens st s₁ sc₁ imp₁ hfind₁ himp₁ hfetch₁ hins hrpc₁
  obtain ⟨st₂, h2, h2len⟩ :=
    stepB_rpc_error env sys token uid scens st₁ s₂ sc₂ imp₂ e₂ hfind₂ himp₂ hfetch₂ hins
      (by rw [h1len]; exact hrpc₂)
  refine ⟨st₁, h1, h1t, h1len, st₂, ?_, by omega⟩
  have hcont : processB env sys token uid scens (s₁ :: s₂ :: rest) st =
      processB env sys token uid scens (s₂ :: rest) st₁ := by
    simp only [processB]
    rw [h1]
  rw [hcont]
  simp only [processB]
  rw [h2]

/-! ## Orchestrator lemmas (StartBenchmark variant) -/

/-- The state carried by an outcome of the StartBenchmark orchestration. -/
def stateOfS : Except (String × StateS) StateS → StateS
  | .ok st => st
  | .error (_, st) => st

@[simp] lemma runs_addToastS (st : StateS) (t : Toast) : (addToastS st t).runs = st.runs := rfl

@[simp] lemma runs_logCallS (st : StateS) (c : NetCall) : (logCallS st c).runs = st.runs := rfl

@[simp] lemma results_addToastS (st : StateS) (t : Toast) :
    (addToastS st t).results = st.results := rfl

@[simp] lemma results_logCallS (st : StateS) (c : NetCall) :
    (logCallS st c).results = st.results := rfl

@[simp] lemma toasts_logCallS (st : StateS) (c : NetCall) :
    (logCallS st c).toasts = st.toasts := rfl

@[simp] lemma toasts_addToastS (st : StateS) (t : Toast) :
    (addToastS st t).toasts = st.toasts ++ [t] := rfl

/-- The per-reviewer result loop leaves the runs table and toasts alone and
only appends to the results table, on both outcomes. -/
lemma addResultsLoopS_extends (env : EnvS) (runId : Nat) (payload : ResultPayload) :
    ∀ (revs : List ReviewerRow) (st : StateS),
      (stateOfS (addResultsLoopS env runId payload revs st)).runs = st.runs ∧
      ∃ suf, (stateOfS (addResultsLoopS env runId payload revs st)).results = st.results ++ suf := by
  intro revs
  induction revs with
  | nil => intro st; exact ⟨rfl, [], by simp [addResultsLoopS, stateOfS]⟩
  | cons rev revs ih =>
      intro st
      simp only [addResultsLoopS]
      split
      · exact ⟨rfl, [], by simp [stateOfS]⟩
      · obtain ⟨hr, suf, hs⟩ := ih _
        exact ⟨hr, _, hs.trans (List.append_assoc st.results _ suf)⟩

/-- Within one scenario of the StartBenchmark variant, the runs and results
tables are only appended to, on both outcomes. -/
lemma stepS_extends (env : EnvS) (sys uid : String) (scens : List Scenario)
    (st : StateS) (sid : Nat) :
    (∃ suf, (stateOfS (stepS env sys uid scens st sid)).runs = st.runs ++ suf) ∧
    (∃ suf, (stateOfS (stepS env sys uid scens st sid)).results = st.results ++ suf) := by
  simp only [stepS]
  split
  · exact ⟨⟨[], by simp [stateOfS]⟩, ⟨[], by simp [stateOfS]⟩⟩
  · split
    · exact ⟨⟨[], by simp [stateOfS]⟩, ⟨[], by simp [stateOfS]⟩⟩
    · split
      · exact ⟨⟨[], by simp [stateOfS]⟩, ⟨[], by simp [stateOfS]⟩⟩
      · split
        · exact ⟨⟨[], by simp [stateOfS]⟩, ⟨[], by simp [stateOfS]⟩⟩
        · split
          · exact ⟨⟨[], by simp [stateOfS]⟩, ⟨[], by simp [stateOfS]⟩⟩
          · split
            · rename_i e heq
              obtain ⟨hr, suf, hs⟩ := (addResultsLoopS_extends env _ _ _ _)
              rw [heq] at hr hs
              exact ⟨⟨_, hr⟩, suf, hs⟩
            · rename_i st2 heq
              obtain ⟨hr, suf, hs⟩ := (addResultsLoopS_extends env _ _ _ _)
              rw [heq] at hr hs
              exact ⟨⟨_, hr⟩, suf, hs⟩

lemma processS_extends (env : EnvS) (sys uid : String) (scens : List Scenario) :
    ∀ (sel : List Nat) (st : StateS),
      (∃ suf, (stateOfS (processS env sys uid scens sel st)).runs = st.runs ++ suf) ∧
      (∃ suf, (stateOfS (processS env sys uid scens sel st)).results = st.results ++ suf) := by
  intro sel
  induction sel with
  | nil => intro st; exact ⟨⟨[], by simp [processS, stateOfS]⟩, ⟨[], by simp [processS, stateOfS]⟩⟩
  | cons sid rest ih =>
      intro st
      simp only [processS]
      cases hstep : stepS env sys uid scens st sid with
      | error e =>
          obtain ⟨⟨s₁, h₁⟩, ⟨s₂, h₂⟩⟩ := stepS_extends env sys uid scens st sid
          rw [hstep] at h₁ h₂
          exact ⟨⟨s₁, h₁⟩, ⟨s₂, h₂⟩⟩
      | ok st' =>
          obtain ⟨⟨s₁, h₁⟩, ⟨s₂, h₂⟩⟩ := stepS_extends env sys uid scens st sid
          rw [hstep] at h₁ h₂
          obtain ⟨⟨t₁, g₁⟩, ⟨t₂, g₂⟩⟩ := ih st'
          constructor
          · refine ⟨s₁ ++ t₁, ?_⟩
            rw [g₁, show st'.runs = st.runs ++ s₁ from h₁, List.append_assoc]
          · refine ⟨s₂ ++ t₂, ?_⟩
            rw [g₂, show st'.results = st.results ++ s₂ from h₂, List.append_assoc]

/-- The catch path of the BenchmarkRunner handler: a thrown batch yields the
generic failure toast on the state at the throw, with `isRunning` reset. -/
lemma handleB_error (env : EnvB) (sel : List Nat) (scens : List Scenario)
    (sys uid : String) (row : SecretRow) (rest : List SecretRow) (token : String)
    (st st' : StateB) (m : String)
    (hsel : ¬ sel.length = 0)
    (htok : gptEngineerTestToken row = some token) (htok2 : ¬ token = "")
    (herr : processB env sys token uid scens sel { st with isRunning := true } = .error (m, st')) :
    handleStartBenchmarkB env sel scens sys uid (row :: rest) st =
      { addToastB st' (Toast.error "An error occurred while starting the benchmark. Please try again.") with
          isRunning := false } := by
  simp only [handleStartBenchmarkB, if_neg hsel]
  rw [htok]
  simp only [if_neg htok2]
  rw [herr]

/-- The success path of the BenchmarkRunner handler. -/
lemma handleB_ok (env : EnvB) (sel : List Nat) (scens : List Scenario)
    (sys uid : String) (row : SecretRow) (rest : List SecretRow) (token : String)
    (st st' : StateB)
    (hsel : ¬ sel.length = 0)
    (htok : gptEngineerTestToken row = some token) (htok2 : ¬ token = "")
    (hok : processB env sys token uid scens sel { st with isRunning := true } = .ok st') :
    handleStartBenchmarkB env sel scens sys uid (row :: rest) st =
      addToastB st' (Toast.success "All benchmarks started successfully!") := by
  simp only [handleStartBenchmarkB, if_neg hsel]
  rw [htok]
  simp only [if_neg htok2]
  rw [hok]

/-- The catch path of the StartBenchmark handler. -/
lemma handleS_error (env : EnvS) (sel : List Nat) (scens : List Scenario)
    (sys uid : String) (st st' : StateS) (m : String)
    (hsel : ¬ sel.length = 0)
    (herr : processS env sys uid scens sel { st with isRunning := true } = .error (m, st')) :
    handleStartBenchmarkS env sel scens sys uid st =
      { addToastS st' (Toast.error "An error occurred while running the benchmark. Please try again.") with
          isRunning := false } := by
  simp only [handleStartBenchmarkS, if_neg hsel]
  rw [herr]

/-- The success path of the StartBenchmark handler. -/
lemma handleS_ok (env : EnvS) (sel : List Nat) (scens : List Scenario)
    (sys uid : String) (st st' : StateS)
    (hsel : ¬ sel.length = 0)
    (hok : processS env sys uid scens sel { st with isRunning := true } = .ok st') :
    handleStartBenchmarkS env sel scens sys uid st =
      { addToastS st' (Toast.success "All benchmarks completed successfully!") with
          navigated := true, isRunning := false } := by
  simp only [handleStartBenchmarkS, if_neg hsel]
  rw [hok]

/-! ## Claim C9 -/

/-- C9: when a fatal error aborts the batch, nothing is rolled back.  In both
variants the runs table (and, in the StartBenchmark variant, also the results
table) is only ever appended to during the batch, and the catch path leaves
the store exactly as it was at the moment of the throw — no compensating
delete is performed, so every row persisted by earlier successful scenarios
survives. -/
theorem C9_no_rollback (envB : EnvB) (selB : List Nat) (scens : List Scenario)
    (sys uid : String) (row : SecretRow) (rest : List SecretRow) (token : String)
    (stB stB' : StateB) (m : String)
    (hselB : ¬ selB.length = 0)
    (htok : gptEngineerTestToken row = some token) (htok2 : ¬ token = "")
    (herrB : processB envB sys token uid scens selB { stB with isRunning := true } = .error (m, stB'))
    (envS : EnvS) (selS : List Nat) (stS stS' : StateS) (mS : String)
    (hselS : ¬ selS.length = 0)
    (herrS : processS envS sys uid scens selS { stS with isRunning := true } = .error (mS, stS')) :
    ((∃ suf, stB'.runs = stB.runs ++ suf) ∧
      (handleStartBenchmarkB envB selB scens sys uid (row :: rest) stB).runs = stB'.runs ∧
      (handleStartBenchmarkB envB selB scens sys uid (row :: rest) stB).results = stB'.results) ∧
    ((∃ suf, stS'.runs = stS.runs ++ suf) ∧ (∃ suf, stS'.results = stS.results ++ suf) ∧
      (handleStartBenchmarkS envS selS scens sys uid stS).runs = stS'.runs ∧
      (handleStartBenchmarkS envS selS scens sys uid stS).results = stS'.results) := by
  have hB := processB_runs_extend envB sys token uid scens selB { stB with isRunning := true }
  rw [herrB] at hB
  have hBh := handleB_error envB selB scens sys uid row rest token stB stB' m hselB htok htok2 herrB
  obtain ⟨⟨s₁, h₁⟩, s₂, h₂⟩ := processS_extends envS sys uid scens selS { stS with isRunning := true }
  rw [herrS] at h₁ h₂
  have hSh := handleS_error envS selS scens sys uid stS stS' mS hselS herrS
  exact ⟨⟨hB, by rw [hBh]; rfl, by rw [hBh]; rfl⟩, ⟨s₁, h₁⟩, ⟨s₂, h₂⟩,
    by rw [hSh]; rfl, by rw [hSh]; rfl⟩

/-! ## Success-path characterization (for claim C1) -/

/-- The result rows inserted by one scenario's reviewer loop, with consecutive
ids starting at `n`. -/
def resultRowsFrom (runId : Nat) (payload : ResultPayload) : Nat → List ReviewerRow → List ResultRowS
  | _, [] => []
  | n, rev :: revs =>
      { id := n, run_id := runId, reviewer_id := rev.id, result := payload } ::
        resultRowsFrom runId payload (n + 1) revs

lemma map_pair_resultRowsFrom (runId : Nat) (payload : ResultPayload) :
    ∀ (revs : List ReviewerRow) (n : Nat),
      (resultRowsFrom runId payload n revs).map (fun r => (r.run_id, r.reviewer_id)) =
        revs.map (fun rev => (runId, rev.id)) := by
  intro revs
  induction revs with
  | nil => intro n; rfl
  | cons rev revs ih => intro n; simp [resultRowsFrom, ih]

lemma result_mem_resultRowsFrom (runId : Nat) (payload : ResultPayload) :
    ∀ (revs : List ReviewerRow) (n : Nat) (r : ResultRowS),
      r ∈ resultRowsFrom runId payload n revs → r.result = payload := by
  intro revs
  induction revs with
  | nil => intro n r h; cases h
  | cons rev revs ih =>
      intro n r h
      rcases List.mem_cons.mp h with h | h
      · rw [h]
      · exact ih (n + 1) r h

/-- Closed form of the reviewer loop when every `addResult` insert succeeds. -/
lemma addResultsLoopS_eq (env : EnvS) (runId : Nat) (payload : ResultPayload)
    (hres : ∀ r, env.addResultError r = none) :
    ∀ (revs : List ReviewerRow) (st : StateS),
      addResultsLoopS env runId payload revs st =
        .ok { st with
          results := st.results ++ resultRowsFrom runId payload st.results.length revs,
          calls := st.calls ++ List.replicate revs.length NetCall.insertResult } := by
  intro revs
  induction revs with
  | nil => intro st; simp [addResultsLoopS, resultRowsFrom]
  | cons rev revs ih =>
      intro st
      simp only [addResultsLoopS, hres]
      rw [ih]
      congr 1
      congr 1
      · simp [resultRowsFrom, List.append_assoc]
      · simp [logCallS, List.replicate_succ, List.append_assoc]

/-- One scenario of the StartBenchmark variant under fully successful
collaborators: the step succeeds, appends exactly one run row for the scenario
and one result row per configured reviewer, each referencing the new run and
its reviewer, with a payload echoing the system version. -/
lemma stepS_all_ok (env : EnvS) (sys uid : String) (scens : List Scenario)
    (st : StateS) (sid : Nat) (sc : Scenario) (evs : List ImpEvent) (pid : String)
    (hfind : scens.find? (fun s => s.id = sid) = some sc)
    (hevs : env.impersonate sc.prompt sys = .ok evs)
    (hpid : extractProjectId evs = some pid) (hpne : ¬ pid = "")
    (hrun : ∀ r, env.addRunError r = none)
    (hres : ∀ r, env.addResultError r = none) :
    ∃ st', stepS env sys uid scens st sid = .ok st' ∧
      st'.runs.map (fun r => r.scenario_id) = st.runs.map (fun r => r.scenario_id) ++ [sid] ∧
      st'.runs.length = st.runs.length + 1 ∧
      st'.results.map (fun r => (r.run_id, r.reviewer_id)) =
        st.results.map (fun r => (r.run_id, r.reviewer_id)) ++
          sc.reviewers.map (fun rev => (st.runs.length, rev.id)) ∧
      ∀ r ∈ st'.results, r ∈ st.results ∨ r.result.system_version = sys := by
  simp only [stepS, hfind, hevs, hpid]
  rw [if_neg hpne]
  simp only [hrun]
  rw [addResultsLoopS_eq env _ _ hres]
  refine ⟨_, rfl, by simp, by simp, ?_, ?_⟩
  · simp [map_pair_resultRowsFrom]
  · intro r hr
    simp only [results_addToastS] at hr
    rcases List.mem_append.mp hr with h | h
    · exact Or.inl h
    · exact Or.inr (by rw [result_mem_resultRowsFrom _ _ _ _ _ h])

/-- The per-scenario blocks of (run index, reviewer id) pairs expected from a
selection, with run ids assigned positionally starting at `base`. -/
def expPairs (scens : List Scenario) : Nat → List Nat → List (Nat × Nat)
  | _, [] => []
  | base, sid :: rest =>
      (match scens.find? (fun s => s.id = sid) with
       | some sc => sc.reviewers.map (fun rev => (base, rev.id))
       | none => []) ++ expPairs scens (base + 1) rest

/-- The StartBenchmark scenario loop under fully successful collaborators:
one run per selected scenario in input order, and per scenario one result per
reviewer referencing that scenario's (positional) run. -/
lemma processS_all_ok (env : EnvS) (sys uid : String) (scens : List Scenario)
    (himp : ∀ p, ∃ evs pid, env.impersonate p sys = .ok evs ∧
      extractProjectId evs = some pid ∧ ¬ pid = "")
    (hrun : ∀ r, env.addRunError r = none)
    (hres : ∀ r, env.addResultError r = none) :
    ∀ (sel : List Nat) (st : StateS),
      (∀ sid ∈ sel, (scens.find? (fun s => s.id = sid)).isSome = true) →
      ∃ st', processS env sys uid scens sel st = .ok st' ∧
        st'.runs.map (fun r => r.scenario_id) = st.runs.map (fun r => r.scenario_id) ++ sel ∧
        st'.results.map (fun r => (r.run_id, r.reviewer_id)) =
          st.results.map (fun r => (r.run_id, r.reviewer_id)) ++
            expPairs scens st.runs.length sel ∧
        ∀ r ∈ st'.results, r ∈ st.results ∨ r.result.system_version = sys := by
  intro sel
  induction sel with
  | nil =>
      intro st _
      exact ⟨st, rfl, by simp, by simp [expPairs], fun r hr => Or.inl hr⟩
  | cons sid rest ih =>
      intro st hfound
      obtain ⟨sc, hsc⟩ := Option.isSome_iff_exists.mp (hfound sid (List.mem_cons_self sid rest))
      obtain ⟨evs, pid, hevs, hpid, hpne⟩ := himp sc.prompt
      obtain ⟨st₁, hstep, hmap₁, hlen₁, hpairs₁, hmem₁⟩ :=
        stepS_all_ok env sys uid scens st sid sc evs pid hsc hevs hpid hpne hrun hres
      obtain ⟨st', hproc, hmap₂, hpairs₂, hmem₂⟩ :=
        ih st₁ (fun s hs => hfound s (List.mem_cons_of_mem sid hs))
      refine ⟨st', ?_, ?_, ?_, ?_⟩
      · simp only [processS]
        rw [hstep]
        exact hproc
      · rw [hmap₂, hmap₁, List.append_assoc]
        rfl
      · rw [hpairs₂, hpairs₁, hlen₁, List.append_assoc]
        congr 1
        simp only [expPairs, hsc]
      · intro r hr
        rcases hmem₂ r hr with h | h
        · rcases hmem₁ r h with h2 | h2
          · exact Or.inl h2
          · exact Or.inr h2
        · exact Or.inr h

/-- One scenario of the BenchmarkRunner variant under fully successful
collaborators: the step succeeds (with either the success or the warning
toast), appends exactly one run row for the scenario, and writes nothing to
the results table. -/
lemma stepB_all_ok (env : EnvB) (sys token uid : String) (scens : List Scenario)
    (st : StateB) (sid : Nat) (sc : Scenario) (imp : ImpB) (b : Bool)
    (hfind : scens.find? (fun s => s.id = sid) = some sc)
    (himp : env.impersonate sc.prompt sys sc.llm_temperature = .ok imp)
    (hfetch : (env.fetchProject sys imp.projectId token).ok = true)
    (hins : ∀ r, env.insertRunError r = none)
    (hrpc : env.startPausedRun st.runs.length = .ok b) :
    ∃ st', stepB env sys token uid scens st sid = .ok st' ∧
      st'.runs.map (fun r => r.scenario_id) = st.runs.map (fun r => r.scenario_id) ++ [sid] ∧
      st'.runs.length = st.runs.length + 1 ∧
      st'.results = st.results := by
  simp only [stepB, hfind, himp]
  rw [if_neg (by rw [hfetch]; simp)]
  simp only [hins, runs_logCallB]
  rw [hrpc]
  cases b <;> exact ⟨_, rfl, by simp, by simp, by simp⟩

/-- The BenchmarkRunner scenario loop under fully successful collaborators:
one run per selected scenario in input order, and an untouched results
table. -/
lemma processB_all_ok (env : EnvB) (sys token uid : String) (scens : List Scenario)
    (himp : ∀ p t, ∃ imp, env.impersonate p sys t = .ok imp)
    (hfetch : ∀ pid, (env.fetchProject sys pid token).ok = true)
    (hins : ∀ r, env.insertRunError r = none)
    (hrpc : ∀ i, ∃ b, env.startPausedRun i = .ok b) :
    ∀ (sel : List Nat) (st : StateB),
      (∀ sid ∈ sel, (scens.find? (fun s => s.id = sid)).isSome = true) →
      ∃ st', processB env sys token uid scens sel st = .ok st' ∧
        st'.runs.map (fun r => r.scenario_id) = st.runs.map (fun r => r.scenario_id) ++ sel ∧
        st'.results = st.results := by
  intro sel
  induction sel with
  | nil => intro st _; exact ⟨st, rfl, by simp, rfl⟩
  | cons sid rest ih =>
      intro st hfound
      obtain ⟨sc, hsc⟩ := Option.isSome_iff_exists.mp (hfound sid (List.mem_cons_self sid rest))
      obtain ⟨imp, himp₁⟩ := himp sc.prompt sc.llm_temperature
      obtain ⟨b, hrpc₁⟩ := hrpc st.runs.length
      obtain ⟨st₁, hstep, hmap₁, hlen₁, hresults₁⟩ :=
        stepB_all_ok env sys token uid scens st sid sc imp b hsc himp₁ (hfetch imp.projectId)
          hins hrpc₁
      obtain ⟨st', hproc, hmap₂, hresults₂⟩ :=
        ih st₁ (fun s hs => hfound s (List.mem_cons_of_mem sid hs))
      refine ⟨st', ?_, ?_, ?_⟩
      · simp only [processB]
        rw [hstep]
        exact hproc
      · rw [hmap₂, hmap₁, List.append_assoc]
        rfl
      · rw [hresults₂, hresults₁]

/-! ## Concrete sample data (used by the claim witnesses) -/

/-- An empty BenchmarkRunner store with the running flag down. -/
def initStateB : StateB := ⟨[], [], [], [], false⟩

/-- An empty StartBenchmark store. -/
def initStateS : StateS := ⟨[], [], [], [], false, false⟩

/-- Two scenarios: scenario 1 with one reviewer, scenario 2 with two. -/
def sampleScenarios : List Scenario :=
  [⟨1, "one", "prompt1", 0, [⟨10⟩]⟩, ⟨2, "two", "prompt2", 0, [⟨20⟩, ⟨21⟩]⟩]

/-- One secrets row holding a valid test token. -/
def sampleSecrets : List SecretRow := [⟨[("GPT_ENGINEER_TEST_TOKEN", "tok")]⟩]

/-- BenchmarkRunner collaborators that always succeed. -/
def envBok : EnvB where
  impersonate := fun _ _ _ => .ok ⟨"p1", "req", []⟩
  fetchProject := fun _ _ _ => ⟨true, "OK", "l"⟩
  insertRunError := fun _ => none
  startPausedRun := fun _ => .ok true

/-- BenchmarkRunner collaborators whose project fetch always fails. -/
def envBfetchFail : EnvB where
  impersonate := fun _ _ _ => .ok ⟨"p1", "req", []⟩
  fetchProject := fun _ _ _ => ⟨false, "Unauthorized", ""⟩
  insertRunError := fun _ => none
  startPausedRun := fun _ => .ok true

/-- BenchmarkRunner collaborators whose rpc returns a falsy result for the
first run and an explicit error for every later one. -/
def envBrpcMix : EnvB where
  impersonate := fun _ _ _ => .ok ⟨"p1", "req", []⟩
  fetchProject := fun _ _ _ => ⟨true, "OK", "l"⟩
  insertRunError := fun _ => none
  startPausedRun := fun i => if i = 0 then .ok false else .error "boom"

/-- StartBenchmark collaborators that always succeed. -/
def envSok : EnvS where
  impersonate := fun _ _ => .ok [⟨"project_created", some "p9"⟩]
  addRunError := fun _ => none
  addResultError := fun _ => none

/-! ## Claim C1 -/

/-- C1 (counterexample to the claim as stated): in the BenchmarkRunner variant
(one of the claim's cited call sites), a fully successful batch over a
scenario configured with one Reviewer persists its Run row but not a single
Result row — the component receives `addResult` but never calls it. -/
theorem C1_counterexample :
    (handleStartBenchmarkB envBok [1] sampleScenarios "v" "u" sampleSecrets initStateB).runs.length = 1 ∧
    (sampleScenarios.find? (fun s => s.id = 1)).map (fun sc => sc.reviewers.length) = some 1 ∧
    (handleStartBenchmarkB envBok [1] sampleScenarios "v" "u" sampleSecrets initStateB).results = [] ∧
    ¬ (handleStartBenchmarkB envBok [1] sampleScenarios "v" "u" sampleSecrets initStateB).results.length = 1 := by
  have h3 : (handleStartBenchmarkB envBok [1] sampleScenarios "v" "u" sampleSecrets initStateB).results =
      [] := rfl
  refine ⟨rfl, rfl, h3, ?_⟩
  rw [h3]
  simp

/-- C1 (amended): for every non-empty selection of scenario ids resolvable in
the loaded scenario set, with collaborators that always succeed, the
StartBenchmark variant persists exactly one Run row per selected scenario in
input order and, for each Reviewer configured on the scenario, exactly one
Result row referencing that scenario's (positionally numbered) Run and that
Reviewer, with a payload echoing the system version; the BenchmarkRunner
variant persists exactly one Run row per selected scenario in input order and
no Result rows. -/
theorem C1_runs_and_results (envS : EnvS) (envB : EnvB) (sel : List Nat)
    (scens : List Scenario) (sys uid token : String) (row : SecretRow) (rest : List SecretRow)
    (hsel : sel ≠ [])
    (hfound : ∀ sid ∈ sel, (scens.find? (fun s => s.id = sid)).isSome = true)
    (himpS : ∀ p, ∃ evs pid, envS.impersonate p sys = .ok evs ∧
      extractProjectId evs = some pid ∧ ¬ pid = "")
    (hrunS : ∀ r, envS.addRunError r = none)
    (hresS : ∀ r, envS.addResultError r = none)
    (htok : gptEngineerTestToken row = some token) (htok2 : ¬ token = "")
    (himpB : ∀ p t, ∃ imp, envB.impersonate p sys t = .ok imp)
    (hfetchB : ∀ pid, (envB.fetchProject sys pid token).ok = true)
    (hinsB : ∀ r, envB.insertRunError r = none)
    (hrpcB : ∀ i, ∃ b, envB.startPausedRun i = .ok b) :
    (handleStartBenchmarkS envS sel scens sys uid initStateS).runs.map
      (fun r => r.scenario_id) = sel ∧
    (handleStartBenchmarkS envS sel scens sys uid initStateS).results.map
      (fun r => (r.run_id, r.reviewer_id)) = expPairs scens 0 sel ∧
    (∀ r ∈ (handleStartBenchmarkS envS sel scens sys uid initStateS).results,
      r.result.system_version = sys) ∧
    (handleStartBenchmarkB envB sel scens sys uid (row :: rest) initStateB).runs.map
      (fun r => r.scenario_id) = sel ∧
    (handleStartBenchmarkB envB sel scens sys uid (row :: rest) initStateB).results = [] := by
  have hlen : ¬ sel.length = 0 := fun h => hsel (List.length_eq_zero.mp h)
  obtain ⟨stS', hprocS, hmapS, hpairsS, hmemS⟩ :=
    processS_all_ok envS sys uid scens himpS hrunS hresS sel
      { initStateS with isRunning := true } hfound
  have hSh := handleS_ok envS sel scens sys uid initStateS stS' hlen hprocS
  obtain ⟨stB', hprocB, hmapB, hresB⟩ :=
    processB_all_ok envB sys token uid scens himpB hfetchB hinsB hrpcB sel
      { initStateB with isRunning := true } hfound
  have hBh := handleB_ok envB sel scens sys uid row rest token initStateB stB' hlen htok htok2 hprocB
  refine ⟨?_, ?_, ?_, ?_, ?_⟩
  · rw [hSh]
    simpa [initStateS] using hmapS
  · rw [hSh]
    simpa [initStateS] using hpairsS
  · intro r hr
    rw [hSh] at hr
    have hr' : r ∈ stS'.results := by simpa using hr
    rcases hmemS r hr' with h | h
    · exact absurd h (by simp [initStateS])
    · exact h
  · rw [hBh]
    simpa [initStateB] using hmapB
  · rw [hBh]
    simpa [initStateB] using hresB

/-- C1 witness: the amended claim evaluated on the concrete sample data. -/
theorem C1_runs_and_results_witness :
    (handleStartBenchmarkS envSok [1, 2] sampleScenarios "v" "u" initStateS).runs.map
      (fun r => r.scenario_id) = [1, 2] ∧
    (handleStartBenchmarkS envSok [1, 2] sampleScenarios "v" "u" initStateS).results.map
      (fun r => (r.run_id, r.reviewer_id)) = expPairs sampleScenarios 0 [1, 2] ∧
    (handleStartBenchmarkB envBok [1, 2] sampleScenarios "v" "u" sampleSecrets initStateB).results = [] := by
  have h := C1_runs_and_results envSok envBok [1, 2] sampleScenarios "v" "u" "tok"
    ⟨[("GPT_ENGINEER_TEST_TOKEN", "tok")]⟩ [] (by simp) (by decide)
    (fun _ => ⟨[⟨"project_created", some "p9"⟩], "p9", rfl, rfl, by decide⟩)
    (fun _ => rfl) (fun _ => rfl) rfl (by decide)
    (fun _ _ => ⟨⟨"p1", "req", []⟩, rfl⟩) (fun _ => rfl) (fun _ => rfl)
    (fun _ => ⟨true, rfl⟩)
  exact ⟨h.1, h.2.1, h.2.2.2.2⟩

/-! ## Remaining witnesses -/

/-- C3 witness: a batch whose first scenario's project fetch fails leaves no
run rows and resets the running flag. -/
theorem C3_project_fetch_failure_witness :
    (handleStartBenchmarkB envBfetchFail ([] ++ 1 :: [2]) sampleScenarios "v" "u"
      sampleSecrets initStateB).runs = [] ∧
    (handleStartBenchmarkB envBfetchFail ([] ++ 1 :: [2]) sampleScenarios "v" "u"
      sampleSecrets initStateB).isRunning = false := by
  have h := C3_project_fetch_failure envBfetchFail sampleScenarios "v" "u"
    ⟨[("GPT_ENGINEER_TEST_TOKEN", "tok")]⟩ [] "tok" initStateB _ [] [2] 1
    ⟨1, "one", "prompt1", 0, [⟨10⟩]⟩ ⟨"p1", "req", []⟩ rfl (by decide) rfl rfl rfl rfl
  exact ⟨h.2.1.trans rfl, h.2.2.1⟩

/-- C6 witness: with the mixed rpc stub, scenario 1's run is created but not
started (warning, loop continues) and scenario 2's rpc error aborts the
batch with both run rows inserted. -/
theorem C6_start_paused_run_outcomes_witness :
    ∃ st₁, stepB envBrpcMix "v" "tok" "u" sampleScenarios initStateB 1 = .ok st₁ ∧
      st₁.toasts = initStateB.toasts ++
        [Toast.warning ("Benchmark created but not started for scenario: " ++ "one")] ∧
      st₁.runs.length = initStateB.runs.length + 1 ∧
      ∃ st₂, processB envBrpcMix "v" "tok" "u" sampleScenarios (1 :: 2 :: []) initStateB =
          .error ("Failed to start run: " ++ "boom", st₂) ∧
        st₂.runs.length = initStateB.runs.length + 2 :=
  C6_start_paused_run_outcomes envBrpcMix sampleScenarios "v" "u" "tok" initStateB 1 2 []
    ⟨1, "one", "prompt1", 0, [⟨10⟩]⟩ ⟨2, "two", "prompt2", 0, [⟨20⟩, ⟨21⟩]⟩
    ⟨"p1", "req", []⟩ ⟨"p1", "req", []⟩ "boom" rfl rfl rfl rfl rfl rfl (fun _ => rfl) rfl rfl

/-- C7 witness: selecting the missing scenario id 99 after the valid scenario
1 leaves exactly scenario 1's run and resets the running flag. -/
theorem C7_missing_scenario_witness :
    (handleStartBenchmarkB envBok ([1] ++ 99 :: []) sampleScenarios "v" "u"
      sampleSecrets initStateB).runs.length = 1 ∧
    (handleStartBenchmarkB envBok ([1] ++ 99 :: []) sampleScenarios "v" "u"
      sampleSecrets initStateB).isRunning = false := by
  have h := C7_missing_scenario envBok sampleScenarios "v" "u"
    ⟨[("GPT_ENGINEER_TEST_TOKEN", "tok")]⟩ [] "tok" initStateB _ [1] [] 99
    rfl (by decide) rfl rfl
  exact ⟨(congrArg List.length h.2.1).trans rfl, h.2.2.1⟩

/-- C9 witness: in both variants a batch aborted by the missing scenario id 99
keeps scenario 1's previously persisted rows. -/
theorem C9_no_rollback_witness :
    (handleStartBenchmarkB envBok [1, 99] sampleScenarios "v" "u" sampleSecrets initStateB).runs.length = 1 ∧
    (handleStartBenchmarkS envSok [1, 99] sampleScenarios "v" "u" initStateS).runs.length = 1 ∧
    (handleStartBenchmarkS envSok [1, 99] sampleScenarios "v" "u" initStateS).results.length = 1 := by
  have h := C9_no_rollback envBok [1, 99] sampleScenarios "v" "u"
    ⟨[("GPT_ENGINEER_TEST_TOKEN", "tok")]⟩ [] "tok" initStateB _ _ (by simp) rfl (by decide) rfl
    envSok [1, 99] initStateS _ _ (by simp) rfl
  exact ⟨(congrArg List.length h.1.2.1).trans rfl,
    (congrArg List.length h.2.2.2.1).trans rfl,
    (congrArg List.length h.2.2.2.2).trans rfl⟩

/-- C10 witness: after a fully successful two-scenario batch the running flag
is still up. -/
theorem C10_success_keeps_running_witness :
    (handleStartBenchmarkB envBok [1, 2] sampleScenarios "v" "u" sampleSecrets initStateB).isRunning = true :=
  (C10_success_keeps_running envBok [1, 2] sampleScenarios "v" "u"
    ⟨[("GPT_ENGINEER_TEST_TOKEN", "tok")]⟩ [] "tok" initStateB _ (by simp) rfl (by decide) rfl).1

end Playful

